import Mathlib

/-!
Shallow embedding of the assimp-python-binding adapter
(`src/src/assimp_export.cpp`, logging variant, and
`src/unnamed/part_000`, the plain variant).

The wrapped assimp library is external to the repository.  It is modelled
abstractly by `AssimpLib`: a behaviour record giving, for every call the
adapter can make, the value the library returns together with the error
string the corresponding handle holds afterwards.  The adapter itself is
embedded faithfully: its mutable state is the two handles' error strings
plus the construction-time logging flag, and `usdzToObj` additionally
returns the list of emitted log lines and the trace of library calls it
performed, so that claims about the post-processing flags and the export
format id are statable.
-/

/-- Post-process flag, value from assimp's public `postprocess.h`
(`aiProcess_JoinIdenticalVertices = 0x2`). -/
def aiProcess_JoinIdenticalVertices : Nat := 0x2

/-- Post-process flag, value from assimp's public `postprocess.h`
(`aiProcess_Triangulate = 0x8`). -/
def aiProcess_Triangulate : Nat := 0x8

/-- Post-process flag, value from assimp's public `postprocess.h`
(`aiProcess_GenSmoothNormals = 0x40`). -/
def aiProcess_GenSmoothNormals : Nat := 0x40

/-- Post-process flag, value from assimp's public `postprocess.h`
(`aiProcess_FlipUVs = 0x800000`). -/
def aiProcess_FlipUVs : Nat := 0x800000

/-- Scene flag, value from assimp's public `scene.h`
(`AI_SCENE_FLAGS_INCOMPLETE = 0x1`). -/
def AI_SCENE_FLAGS_INCOMPLETE : Nat := 0x1

/-- The status code returned by `Assimp::Exporter::Export`
(assimp's `aiReturn`, ignoring the enum-forcing dummy value). -/
inductive aiReturn where
  | SUCCESS
  | FAILURE
  | OUTOFMEMORY
deriving DecidableEq, Repr

/-- The fields of an assimp `aiScene` that the adapter reads.
`mRootNode` is `true` when the scene's root-node pointer is non-null. -/
structure aiScene where
  mFlags : Nat
  mRootNode : Bool
  mNumMeshes : Nat
  mNumMaterials : Nat
  mNumTextures : Nat
deriving DecidableEq, Repr

/-- An export-format descriptor as returned by
`Assimp::Exporter::GetExportFormatDescription`. -/
structure aiExportFormatDesc where
  id : String
  description : String
deriving DecidableEq, Repr

/-- Abstract behaviour of the wrapped assimp library.  Each operation
returns the library's result paired with the error string the handle
holds afterwards (`GetErrorString` reads exactly that string). -/
structure AssimpLib where
  readFile : String → Nat → Option aiScene × String
  exportScene : aiScene → String → String → aiReturn × String
  exportFormatCount : Nat
  exportFormatDescription : Nat → aiExportFormatDesc

/-- State of one `AssimpExportWrapper` instance (logging variant): the
two handles' current error strings and the construction-time flag. -/
structure AssimpExportWrapper where
  importError : String
  exportError : String
  enable_logging : Bool
deriving DecidableEq, Repr

/-- State of the plain (unnamed) variant of the wrapper: the two
handles' current error strings; that variant has no logging flag. -/
structure AssimpExportWrapperV2 where
  importError : String
  exportError : String
deriving DecidableEq, Repr

/-- One library call the adapter performs during `usdzToObj`, recorded
for the call trace. -/
inductive LibCall where
  | readFile (path : String) (flags : Nat)
  | exportCall (scene : aiScene) (formatId : String) (path : String)
deriving DecidableEq, Repr

/-- `AssimpExportWrapper::log`: emits one prefixed line when logging is
enabled, nothing otherwise. -/
def AssimpExportWrapper.log (self : AssimpExportWrapper) (msg : String) :
    List String :=
  if self.enable_logging then ["[assimp_export] " ++ msg] else []

/-- The constructor `AssimpExportWrapper(bool enableLogging = false)`:
fresh handles hold empty error strings; when logging is enabled one
announcement line is printed. -/
def mkAssimpExportWrapper (enableLogging : Bool) :
    AssimpExportWrapper × List String :=
  ({ importError := "", exportError := "", enable_logging := enableLogging },
   if enableLogging then ["[assimp_export] Logger enabled"] else [])

/-- `AssimpExportWrapper::getSupportedFormats`: one formatted string per
registered export format, in registry order. -/
def getSupportedFormats (lib : AssimpLib) : List String :=
  (List.range lib.exportFormatCount).map fun i =>
    let desc := lib.exportFormatDescription i
    desc.id ++ " - " ++ desc.description

/-- `getSupportedFormats` of the plain (unnamed) variant; the source
text of the method is identical to the logging variant's. -/
def getSupportedFormatsV2 (lib : AssimpLib) : List String :=
  (List.range lib.exportFormatCount).map fun i =>
    let desc := lib.exportFormatDescription i
    desc.id ++ " - " ++ desc.description

/-- The fixed post-process flag word built in `usdzToObj` (local
variable `ppFlags` in the source). -/
def ppFlags : Nat :=
  aiProcess_Triangulate ||| aiProcess_FlipUVs |||
    aiProcess_GenSmoothNormals ||| aiProcess_JoinIdenticalVertices

/-- Result of one `usdzToObj` call: the returned boolean, the wrapper
state afterwards, the log lines emitted, and the library-call trace. -/
structure ConvertResult where
  ok : Bool
  state : AssimpExportWrapper
  logLines : List String
  calls : List LibCall
deriving DecidableEq, Repr

/-- `AssimpExportWrapper::usdzToObj` (logging variant): import with the
fixed post-process flags, fail on null scene, incomplete scene or
missing root node, otherwise export to "obj" and report its status. -/
def usdzToObj (lib : AssimpLib) (self : AssimpExportWrapper)
    (usdzFile objFile : String) : ConvertResult :=
  let startLogs :=
    self.log "Start converting USDZ -> OBJ" ++
    self.log ("Input: " ++ usdzFile) ++
    self.log ("Output: " ++ objFile) ++
    self.log
      "Post-process flags: Triangulate | FlipUVs | GenSmoothNormals | JoinIdenticalVertices"
  match lib.readFile usdzFile ppFlags with
  | (none, e) =>
      { ok := false
        state := { self with importError := e }
        logLines := startLogs ++
          self.log ("Import failed: " ++ (if e = "" then "<no error string>" else e))
        calls := [LibCall.readFile usdzFile ppFlags] }
  | (some scene, e) =>
      if scene.mFlags &&& AI_SCENE_FLAGS_INCOMPLETE ≠ 0 then
        { ok := false
          state := { self with importError := e }
          logLines := startLogs ++
            self.log "Import failed: scene is incomplete (AI_SCENE_FLAGS_INCOMPLETE)" ++
            self.log ("Importer error: " ++ e)
          calls := [LibCall.readFile usdzFile ppFlags] }
      else if scene.mRootNode = false then
        { ok := false
          state := { self with importError := e }
          logLines := startLogs ++
            self.log "Import failed: scene->mRootNode is null" ++
            self.log ("Importer error: " ++ e)
          calls := [LibCall.readFile usdzFile ppFlags] }
      else
        let midLogs := startLogs ++
          self.log "Import succeeded." ++
          self.log ("Meshes: " ++ toString scene.mNumMeshes ++
            ", Materials: " ++ toString scene.mNumMaterials ++
            ", Textures: " ++ toString scene.mNumTextures) ++
          self.log "Begin export to OBJ..."
        match lib.exportScene scene "obj" objFile with
        | (result, ee) =>
            if result ≠ aiReturn.SUCCESS then
              { ok := false
                state := { self with importError := e, exportError := ee }
                logLines := midLogs ++
                  self.log ("Export failed: " ++
                    (if ee = "" then "<no error string>" else ee))
                calls := [LibCall.readFile usdzFile ppFlags,
                          LibCall.exportCall scene "obj" objFile] }
            else
              { ok := true
                state := { self with importError := e, exportError := ee }
                logLines := midLogs ++ self.log "Export succeeded."
                calls := [LibCall.readFile usdzFile ppFlags,
                          LibCall.exportCall scene "obj" objFile] }

/-- `usdzToObj` of the plain (unnamed) variant: one combined failure
test, no logging, returns `result == AI_SUCCESS`. -/
def usdzToObjV2 (lib : AssimpLib) (self : AssimpExportWrapperV2)
    (usdzFile objFile : String) : Bool × AssimpExportWrapperV2 :=
  match lib.readFile usdzFile
      (aiProcess_Triangulate ||| aiProcess_FlipUVs |||
        aiProcess_GenSmoothNormals ||| aiProcess_JoinIdenticalVertices) with
  | (none, e) => (false, { self with importError := e })
  | (some scene, e) =>
      if scene.mFlags &&& AI_SCENE_FLAGS_INCOMPLETE ≠ 0 ∨ scene.mRootNode = false then
        (false, { self with importError := e })
      else
        match lib.exportScene scene "obj" objFile with
        | (result, ee) =>
            (decide (result = aiReturn.SUCCESS),
             { self with importError := e, exportError := ee })

/-- `AssimpExportWrapper::getLastError` (logging variant): import error
first, then export error, each with its prefix, else empty. -/
def getLastError (self : AssimpExportWrapper) : String :=
  let importError := self.importError
  let exportError := self.exportError
  if importError ≠ "" then "Import: " ++ importError
  else if exportError ≠ "" then "Export: " ++ exportError
  else ""

/-- `getLastError` of the plain (unnamed) variant; the source text of
the method is identical to the logging variant's. -/
def getLastErrorV2 (self : AssimpExportWrapperV2) : String :=
  let importError := self.importError
  let exportError := self.exportError
  if importError ≠ "" then "Import: " ++ importError
  else if exportError ≠ "" then "Export: " ++ exportError
  else ""

/-- A library behaviour is well-behaved when a handle's error string is
empty after a successful operation, as assimp documents and as the
spec's ErrorState model assumes. -/
def LibWellBehaved (lib : AssimpLib) : Prop :=
  (∀ p f scene e, lib.readFile p f = (some scene, e) → e = "") ∧
  (∀ scene fmt p e, lib.exportScene scene fmt p = (aiReturn.SUCCESS, e) → e = "")

/-- The export-format id carried by a trace entry, when it is an export
call. -/
def LibCall.exportFormatOf : LibCall → Option String
  | .readFile _ _ => none
  | .exportCall _ fmt _ => some fmt

/-- Whether a trace entry is an import (`ReadFile`) call. -/
def LibCall.isImportCall : LibCall → Bool
  | .readFile _ _ => true
  | .exportCall _ _ _ => false

/-- A concrete library behaviour on which every import fails with a
non-empty error string, as assimp does for a nonexistent input path. -/
def noSceneLib : AssimpLib where
  readFile := fun _ _ => (none, "Unable to open file input.usdz.")
  exportScene := fun _ _ _ => (aiReturn.FAILURE, "")
  exportFormatCount := 0
  exportFormatDescription := fun _ => ⟨"", ""⟩

/-- A concrete complete scene with a root node. -/
def goodScene : aiScene :=
  { mFlags := 0, mRootNode := true, mNumMeshes := 1,
    mNumMaterials := 1, mNumTextures := 0 }

/-- A concrete library behaviour on which import and export succeed and
one export format is registered. -/
def happyLib : AssimpLib where
  readFile := fun _ _ => (some goodScene, "")
  exportScene := fun _ _ _ => (aiReturn.SUCCESS, "")
  exportFormatCount := 1
  exportFormatDescription := fun _ => ⟨"obj", "Wavefront OBJ format"⟩

/-- Unfolding lemma: `usdzToObj` when the import call yields no scene. -/
theorem usdzToObj_readFile_none (lib : AssimpLib) (self : AssimpExportWrapper)
    (u o e : String) (h : lib.readFile u ppFlags = (none, e)) :
    (usdzToObj lib self u o).ok = false ∧
    (usdzToObj lib self u o).state = { self with importError := e } ∧
    (usdzToObj lib self u o).calls = [LibCall.readFile u ppFlags] := by
  unfold usdzToObj
  rw [h]
  exact ⟨rfl, rfl, rfl⟩

/-- Unfolding lemma: `usdzToObj` when the imported scene carries the
incomplete flag. -/
theorem usdzToObj_scene_incomplete (lib : AssimpLib) (self : AssimpExportWrapper)
    (u o e : String) (scene : aiScene)
    (h : lib.readFile u ppFlags = (some scene, e))
    (hf : scene.mFlags &&& AI_SCENE_FLAGS_INCOMPLETE ≠ 0) :
    (usdzToObj lib self u o).ok = false ∧
    (usdzToObj lib self u o).state = { self with importError := e } ∧
    (usdzToObj lib self u o).calls = [LibCall.readFile u ppFlags] := by
  unfold usdzToObj
  rw [h]
  simp [hf]

/-- Unfolding lemma: `usdzToObj` when the imported scene has no root
node. -/
theorem usdzToObj_scene_noroot (lib : AssimpLib) (self : AssimpExportWrapper)
    (u o e : String) (scene : aiScene)
    (h : lib.readFile u ppFlags = (some scene, e))
    (hf : scene.mFlags &&& AI_SCENE_FLAGS_INCOMPLETE = 0)
    (hr : scene.mRootNode = false) :
    (usdzToObj lib self u o).ok = false ∧
    (usdzToObj lib self u o).state = { self with importError := e } ∧
    (usdzToObj lib self u o).calls = [LibCall.readFile u ppFlags] := by
  unfold usdzToObj
  rw [h]
  simp [hf, hr]

/-- Unfolding lemma: `usdzToObj` when the import succeeds and the export
call is reached. -/
theorem usdzToObj_scene_export (lib : AssimpLib) (self : AssimpExportWrapper)
    (u o e ee : String) (scene : aiScene) (result : aiReturn)
    (h : lib.readFile u ppFlags = (some scene, e))
    (hf : scene.mFlags &&& AI_SCENE_FLAGS_INCOMPLETE = 0)
    (hr : scene.mRootNode = true)
    (hex : lib.exportScene scene "obj" o = (result, ee)) :
    (usdzToObj lib self u o).ok = decide (result = aiReturn.SUCCESS) ∧
    (usdzToObj lib self u o).state =
      { self with importError := e, exportError := ee } ∧
    (usdzToObj lib self u o).calls =
      [LibCall.readFile u ppFlags, LibCall.exportCall scene "obj" o] := by
  by_cases hres : result = aiReturn.SUCCESS <;>
    simp [usdzToObj, h, hf, hr, hex, hres]

/-- Unfolding lemma: the plain variant when the import call yields no
scene. -/
theorem usdzToObjV2_readFile_none (lib : AssimpLib) (self : AssimpExportWrapperV2)
    (u o e : String) (h : lib.readFile u ppFlags = (none, e)) :
    usdzToObjV2 lib self u o = (false, { self with importError := e }) := by
  unfold usdzToObjV2
  rw [show lib.readFile u
      (aiProcess_Triangulate ||| aiProcess_FlipUVs |||
        aiProcess_GenSmoothNormals ||| aiProcess_JoinIdenticalVertices) =
      ((none : Option aiScene), e) from h]

/-- Unfolding lemma: the plain variant when the imported scene is
rejected by the combined incomplete-or-rootless test. -/
theorem usdzToObjV2_import_fail (lib : AssimpLib) (self : AssimpExportWrapperV2)
    (u o e : String) (scene : aiScene)
    (h : lib.readFile u ppFlags = (some scene, e))
    (hc : scene.mFlags &&& AI_SCENE_FLAGS_INCOMPLETE ≠ 0 ∨ scene.mRootNode = false) :
    usdzToObjV2 lib self u o = (false, { self with importError := e }) := by
  unfold usdzToObjV2
  rw [show lib.readFile u
      (aiProcess_Triangulate ||| aiProcess_FlipUVs |||
        aiProcess_GenSmoothNormals ||| aiProcess_JoinIdenticalVertices) =
      (some scene, e) from h]
  simp [hc]

/-- Unfolding lemma: the plain variant when the import succeeds and the
export call is reached. -/
theorem usdzToObjV2_scene_export (lib : AssimpLib) (self : AssimpExportWrapperV2)
    (u o e ee : String) (scene : aiScene) (result : aiReturn)
    (h : lib.readFile u ppFlags = (some scene, e))
    (hf : scene.mFlags &&& AI_SCENE_FLAGS_INCOMPLETE = 0)
    (hr : scene.mRootNode = true)
    (hex : lib.exportScene scene "obj" o = (result, ee)) :
    usdzToObjV2 lib self u o =
      (decide (result = aiReturn.SUCCESS),
       { self with importError := e, exportError := ee }) := by
  unfold usdzToObjV2
  rw [show lib.readFile u
      (aiProcess_Triangulate ||| aiProcess_FlipUVs |||
        aiProcess_GenSmoothNormals ||| aiProcess_JoinIdenticalVertices) =
      (some scene, e) from h]
  simp [hf, hr, hex]

/-- C2: `getLastError` returns the importer's error string prefixed
"Import: " when non-empty, else the exporter's error string prefixed
"Export: " when non-empty, else the empty string; when both are
non-empty the import error takes precedence. -/
theorem getLastError_priority (self : AssimpExportWrapper) :
    (self.importError ≠ "" → getLastError self = "Import: " ++ self.importError) ∧
    (self.importError = "" → self.exportError ≠ "" →
      getLastError self = "Export: " ++ self.exportError) ∧
    (self.importError = "" → self.exportError = "" → getLastError self = "") := by
  refine ⟨fun h => ?_, fun h₁ h₂ => ?_, fun h₁ h₂ => ?_⟩ <;>
    simp_all [getLastError]

/-- Witness for C2 at concrete states, covering both-non-empty
precedence, export-only, and the all-clear case. -/
theorem getLastError_priority_witness :
    getLastError ⟨"boom", "bang", false⟩ = "Import: boom" ∧
    getLastError ⟨"", "bang", false⟩ = "Export: bang" ∧
    getLastError ⟨"", "", false⟩ = "" :=
  ⟨(getLastError_priority ⟨"boom", "bang", false⟩).1 (by decide),
   (getLastError_priority ⟨"", "bang", false⟩).2.1 rfl (by decide),
   (getLastError_priority ⟨"", "", false⟩).2.2 rfl rfl⟩

/-- C3: `getSupportedFormats` produces one entry per registered format,
the i-th entry being the i-th descriptor's id, " - ", and description,
in registry order; an empty registry yields the empty list. -/
theorem getSupportedFormats_per_index (lib : AssimpLib) :
    (getSupportedFormats lib).length = lib.exportFormatCount ∧
    (∀ i, i < lib.exportFormatCount →
      (getSupportedFormats lib)[i]? =
        some ((lib.exportFormatDescription i).id ++ " - " ++
          (lib.exportFormatDescription i).description)) ∧
    (lib.exportFormatCount = 0 → getSupportedFormats lib = []) := by
  refine ⟨by simp [getSupportedFormats], fun i hi => ?_, fun h => ?_⟩
  · simp [getSupportedFormats, List.getElem?_map, List.getElem?_range hi]
  · simp [getSupportedFormats, h]

/-- Witness for C3 on a one-format registry. -/
theorem getSupportedFormats_per_index_witness :
    (getSupportedFormats
      { readFile := fun _ _ => (none, "")
        exportScene := fun _ _ _ => (aiReturn.FAILURE, "")
        exportFormatCount := 1
        exportFormatDescription := fun _ => ⟨"obj", "Wavefront OBJ format"⟩ })[0]? =
      some "obj - Wavefront OBJ format" :=
  (getSupportedFormats_per_index _).2.1 0 (by decide)

/-- C4: every `usdzToObj` call performs exactly one import call, and
its flag word is exactly the bitwise-or of Triangulate, FlipUVs,
GenSmoothNormals and JoinIdenticalVertices, independent of the paths
and of the wrapper state. -/
theorem usdzToObj_fixed_post_process (lib : AssimpLib)
    (self : AssimpExportWrapper) (usdzFile objFile : String) :
    (usdzToObj lib self usdzFile objFile).calls.filter
        (fun c => c.isImportCall) =
      [LibCall.readFile usdzFile
        (aiProcess_Triangulate ||| aiProcess_FlipUVs |||
          aiProcess_GenSmoothNormals ||| aiProcess_JoinIdenticalVertices)] := by
  unfold usdzToObj
  rcases hrf : lib.readFile usdzFile ppFlags with ⟨sceneOpt, e⟩
  cases sceneOpt with
  | none => simp [ppFlags, List.filter, LibCall.isImportCall]
  | some scene =>
      by_cases hf : scene.mFlags &&& AI_SCENE_FLAGS_INCOMPLETE ≠ 0
      · simp [hf, ppFlags, List.filter, LibCall.isImportCall]
      · by_cases hr : scene.mRootNode = false
        · simp [hf, hr, ppFlags, List.filter, LibCall.isImportCall]
        · rcases hex : lib.exportScene scene "obj" objFile with ⟨result, ee⟩
          by_cases hres : result ≠ aiReturn.SUCCESS <;>
            simp [hf, hr, hex, hres, ppFlags, List.filter, LibCall.isImportCall]

/-- C1: `usdzToObj` returns false when the import yields no scene, an
incomplete scene, or a scene without root node; it returns true exactly
when the import yields a complete rooted scene and the subsequent OBJ
export reports success. -/
theorem usdzToObj_result_characterisation (lib : AssimpLib)
    (self : AssimpExportWrapper) (usdzFile objFile : String) :
    (usdzToObj lib self usdzFile objFile).ok = true ↔
      ∃ scene,
        (lib.readFile usdzFile ppFlags).1 = some scene ∧
        scene.mFlags &&& AI_SCENE_FLAGS_INCOMPLETE = 0 ∧
        scene.mRootNode = true ∧
        (lib.exportScene scene "obj" objFile).1 = aiReturn.SUCCESS := by
  unfold usdzToObj
  rcases hrf : lib.readFile usdzFile ppFlags with ⟨sceneOpt, e⟩
  cases sceneOpt with
  | none => simp [hrf]
  | some scene =>
      by_cases hf : scene.mFlags &&& AI_SCENE_FLAGS_INCOMPLETE ≠ 0
      · simp [hrf, hf]
      · by_cases hr : scene.mRootNode = false
        · simp [hrf, hf, hr]
        · rcases hex : lib.exportScene scene "obj" objFile with ⟨result, ee⟩
          by_cases hres : result = aiReturn.SUCCESS <;>
            simp_all [hrf, hex]

/-- C5: the returned boolean, the resulting error-string state and the
library-call trace of `usdzToObj` are identical for two wrapper states
that differ only in the logging flag. -/
theorem usdzToObj_logging_oblivious (lib : AssimpLib) (ie ee : String)
    (b₁ b₂ : Bool) (usdzFile objFile : String) :
    (usdzToObj lib ⟨ie, ee, b₁⟩ usdzFile objFile).ok =
      (usdzToObj lib ⟨ie, ee, b₂⟩ usdzFile objFile).ok ∧
    (usdzToObj lib ⟨ie, ee, b₁⟩ usdzFile objFile).state.importError =
      (usdzToObj lib ⟨ie, ee, b₂⟩ usdzFile objFile).state.importError ∧
    (usdzToObj lib ⟨ie, ee, b₁⟩ usdzFile objFile).state.exportError =
      (usdzToObj lib ⟨ie, ee, b₂⟩ usdzFile objFile).state.exportError ∧
    (usdzToObj lib ⟨ie, ee, b₁⟩ usdzFile objFile).calls =
      (usdzToObj lib ⟨ie, ee, b₂⟩ usdzFile objFile).calls := by
  unfold usdzToObj
  rcases hrf : lib.readFile usdzFile ppFlags with ⟨sceneOpt, e⟩
  cases sceneOpt with
  | none => simp
  | some scene =>
      by_cases hf : scene.mFlags &&& AI_SCENE_FLAGS_INCOMPLETE ≠ 0
      · simp [hf]
      · by_cases hr : scene.mRootNode = false
        · simp [hf, hr]
        · rcases hex : lib.exportScene scene "obj" objFile with ⟨result, ee'⟩
          by_cases hres : result ≠ aiReturn.SUCCESS <;>
            simp [hf, hr, hex, hres]

/-- C6: when the import call yields no scene and leaves a non-empty
importer error string (as it does for a nonexistent input path),
`usdzToObj` returns false and `getLastError` immediately afterwards
returns the non-empty string "Import: " followed by that error. -/
theorem usdzToObj_missing_input (lib : AssimpLib)
    (self : AssimpExportWrapper) (usdzFile objFile e : String)
    (hrf : lib.readFile usdzFile ppFlags = (none, e)) (he : e ≠ "") :
    (usdzToObj lib self usdzFile objFile).ok = false ∧
    getLastError (usdzToObj lib self usdzFile objFile).state = "Import: " ++ e ∧
    getLastError (usdzToObj lib self usdzFile objFile).state ≠ "" := by
  have hne : "Import: " ++ e ≠ "" := by
    intro hcontra
    have hlen := congrArg String.length hcontra
    simp [String.length_append] at hlen
    exact absurd hlen.1 (by decide)
  unfold usdzToObj
  rw [hrf]
  refine ⟨rfl, ?_, ?_⟩ <;> simp [getLastError, he, hne]

/-- Witness for C6 on a concrete failing library behaviour. -/
theorem usdzToObj_missing_input_witness :
    noSceneLib.readFile "missing.usdz" ppFlags =
      (none, "Unable to open file input.usdz.") ∧
    (usdzToObj noSceneLib ⟨"", "", false⟩ "missing.usdz" "out.obj").ok = false ∧
    getLastError (usdzToObj noSceneLib ⟨"", "", false⟩ "missing.usdz" "out.obj").state =
      "Import: " ++ "Unable to open file input.usdz." ∧
    getLastError (usdzToObj noSceneLib ⟨"", "", false⟩ "missing.usdz" "out.obj").state ≠ "" :=
  ⟨rfl,
   usdzToObj_missing_input noSceneLib ⟨"", "", false⟩ "missing.usdz" "out.obj"
     "Unable to open file input.usdz." rfl (by decide)⟩

/-- C7: `getLastError` on a freshly constructed wrapper is empty, and,
for a library whose handles hold empty error strings after successful
operations, `getLastError` right after a `usdzToObj` call that returned
true is empty as well. -/
theorem getLastError_empty_when_clean (b : Bool) (lib : AssimpLib)
    (self : AssimpExportWrapper) (usdzFile objFile : String) :
    getLastError (mkAssimpExportWrapper b).1 = "" ∧
    (LibWellBehaved lib → (usdzToObj lib self usdzFile objFile).ok = true →
      getLastError (usdzToObj lib self usdzFile objFile).state = "") := by
  constructor
  · simp [mkAssimpExportWrapper, getLastError]
  · intro hwb hok
    rcases hrf : lib.readFile usdzFile ppFlags with ⟨sceneOpt, e⟩
    cases sceneOpt with
    | none =>
        rw [(usdzToObj_readFile_none lib self usdzFile objFile e hrf).1] at hok
        exact absurd hok (by simp)
    | some scene =>
        have he : e = "" := hwb.1 _ _ _ _ hrf
        by_cases hf : scene.mFlags &&& AI_SCENE_FLAGS_INCOMPLETE ≠ 0
        · rw [(usdzToObj_scene_incomplete lib self usdzFile objFile e scene
            hrf hf).1] at hok
          exact absurd hok (by simp)
        · push_neg at hf
          by_cases hr : scene.mRootNode = false
          · rw [(usdzToObj_scene_noroot lib self usdzFile objFile e scene
              hrf hf hr).1] at hok
            exact absurd hok (by simp)
          · have hr' : scene.mRootNode = true := by
              cases hmr : scene.mRootNode
              · exact absurd hmr hr
              · rfl
            rcases hex : lib.exportScene scene "obj" objFile with ⟨result, ee⟩
            have hmain := usdzToObj_scene_export lib self usdzFile objFile
              e ee scene result hrf hf hr' hex
            rw [hmain.1] at hok
            have hres : result = aiReturn.SUCCESS := by simpa using hok
            have hee : ee = "" := hwb.2 scene "obj" objFile ee (hres ▸ hex)
            rw [hmain.2.1]
            simp [getLastError, he, hee]

/-- Witness for C7 on a concrete succeeding library behaviour. -/
theorem getLastError_empty_when_clean_witness :
    getLastError (mkAssimpExportWrapper false).1 = "" ∧
    getLastError
      (usdzToObj happyLib ⟨"", "", false⟩ "model.usdz" "model.obj").state = "" := by
  have hwb : LibWellBehaved happyLib := by
    constructor
    · intro p f scene e h
      injection h with h1 h2
      exact h2.symm
    · intro scene fmt p e h
      injection h with h1 h2
      exact h2.symm
  exact ⟨(getLastError_empty_when_clean false happyLib ⟨"", "", false⟩ "x" "y").1,
    (getLastError_empty_when_clean false happyLib ⟨"", "", false⟩
      "model.usdz" "model.obj").2 hwb (by decide)⟩

/-- C8: with a registry that never shrinks between calls the length of
the returned sequence never decreases, and when every registered
descriptor has a non-empty id and description, every returned entry is
"<non-empty-id> - <non-empty-description>". -/
theorem getSupportedFormats_stable_wellformed (lib₁ lib₂ : AssimpLib) :
    (lib₁.exportFormatCount ≤ lib₂.exportFormatCount →
      (getSupportedFormats lib₁).length ≤ (getSupportedFormats lib₂).length) ∧
    ((∀ i, i < lib₁.exportFormatCount →
        (lib₁.exportFormatDescription i).id ≠ "" ∧
        (lib₁.exportFormatDescription i).description ≠ "") →
      ∀ s ∈ getSupportedFormats lib₁,
        ∃ fid fdesc, fid ≠ "" ∧ fdesc ≠ "" ∧ s = fid ++ " - " ++ fdesc) := by
  constructor
  · intro hle
    simpa [getSupportedFormats] using hle
  · intro hwf s hs
    simp only [getSupportedFormats, List.mem_map, List.mem_range] at hs
    obtain ⟨i, hi, hsi⟩ := hs
    exact ⟨(lib₁.exportFormatDescription i).id,
      (lib₁.exportFormatDescription i).description,
      (hwf i hi).1, (hwf i hi).2, hsi.symm⟩

/-- Witness for C8 on a concrete one-format registry. -/
theorem getSupportedFormats_stable_wellformed_witness :
    (getSupportedFormats happyLib).length ≤ (getSupportedFormats happyLib).length ∧
    ∃ fid fdesc, fid ≠ "" ∧ fdesc ≠ "" ∧
      "obj - Wavefront OBJ format" = fid ++ " - " ++ fdesc :=
  ⟨(getSupportedFormats_stable_wellformed happyLib happyLib).1 (Nat.le_refl _),
   (getSupportedFormats_stable_wellformed happyLib happyLib).2
     (fun i _ => ⟨by show "obj" ≠ ""; decide,
       by show "Wavefront OBJ format" ≠ ""; decide⟩)
     "obj - Wavefront OBJ format" (by decide)⟩

/-- C9: for the same library behaviour the logging and the plain
variant return the same boolean from `usdzToObj`, leave the same error
strings behind, and their `getSupportedFormats` and `getLastError`
results coincide; the variants differ only in log output. -/
theorem variants_observationally_equivalent (lib : AssimpLib) (ie ee : String)
    (b : Bool) (usdzFile objFile : String) :
    (usdzToObj lib ⟨ie, ee, b⟩ usdzFile objFile).ok =
      (usdzToObjV2 lib ⟨ie, ee⟩ usdzFile objFile).1 ∧
    (usdzToObj lib ⟨ie, ee, b⟩ usdzFile objFile).state.importError =
      (usdzToObjV2 lib ⟨ie, ee⟩ usdzFile objFile).2.importError ∧
    (usdzToObj lib ⟨ie, ee, b⟩ usdzFile objFile).state.exportError =
      (usdzToObjV2 lib ⟨ie, ee⟩ usdzFile objFile).2.exportError ∧
    getSupportedFormatsV2 lib = getSupportedFormats lib ∧
    getLastErrorV2 ⟨ie, ee⟩ = getLastError ⟨ie, ee, b⟩ := by
  have key : ((usdzToObj lib ⟨ie, ee, b⟩ usdzFile objFile).ok =
      (usdzToObjV2 lib ⟨ie, ee⟩ usdzFile objFile).1) ∧
      ((usdzToObj lib ⟨ie, ee, b⟩ usdzFile objFile).state.importError =
        (usdzToObjV2 lib ⟨ie, ee⟩ usdzFile objFile).2.importError) ∧
      ((usdzToObj lib ⟨ie, ee, b⟩ usdzFile objFile).state.exportError =
        (usdzToObjV2 lib ⟨ie, ee⟩ usdzFile objFile).2.exportError) := by
    rcases hrf : lib.readFile usdzFile ppFlags with ⟨sceneOpt, e⟩
    cases sceneOpt with
    | none =>
        have h1 := usdzToObj_readFile_none lib ⟨ie, ee, b⟩ usdzFile objFile e hrf
        have h2 := usdzToObjV2_readFile_none lib ⟨ie, ee⟩ usdzFile objFile e hrf
        rw [h1.1, h1.2.1, h2]
        exact ⟨rfl, rfl, rfl⟩
    | some scene =>
        by_cases hf : scene.mFlags &&& AI_SCENE_FLAGS_INCOMPLETE ≠ 0
        · have h1 := usdzToObj_scene_incomplete lib ⟨ie, ee, b⟩ usdzFile objFile
            e scene hrf hf
          have h2 := usdzToObjV2_import_fail lib ⟨ie, ee⟩ usdzFile objFile
            e scene hrf (Or.inl hf)
          rw [h1.1, h1.2.1, h2]
          exact ⟨rfl, rfl, rfl⟩
        · push_neg at hf
          by_cases hr : scene.mRootNode = false
          · have h1 := usdzToObj_scene_noroot lib ⟨ie, ee, b⟩ usdzFile objFile
              e scene hrf hf hr
            have h2 := usdzToObjV2_import_fail lib ⟨ie, ee⟩ usdzFile objFile
              e scene hrf (Or.inr hr)
            rw [h1.1, h1.2.1, h2]
            exact ⟨rfl, rfl, rfl⟩
          · have hr' : scene.mRootNode = true := by
              cases hmr : scene.mRootNode
              · exact absurd hmr hr
              · rfl
            rcases hex : lib.exportScene scene "obj" objFile with ⟨result, ee'⟩
            have h1 := usdzToObj_scene_export lib ⟨ie, ee, b⟩ usdzFile objFile
              e ee' scene result hrf hf hr' hex
            have h2 := usdzToObjV2_scene_export lib ⟨ie, ee⟩ usdzFile objFile
              e ee' scene result hrf hf hr' hex
            rw [h1.1, h1.2.1, h2]
            exact ⟨rfl, rfl, rfl⟩
  exact ⟨key.1, key.2.1, key.2.2, rfl, rfl⟩

/-- C10: every export call `usdzToObj` performs uses the literal format
id "obj" and writes to the given output path, for every input, output
path and wrapper state. -/
theorem usdzToObj_export_format_obj (lib : AssimpLib)
    (self : AssimpExportWrapper) (usdzFile objFile : String)
    (scene : aiScene) (fmt p : String)
    (hc : LibCall.exportCall scene fmt p ∈
      (usdzToObj lib self usdzFile objFile).calls) :
    fmt = "obj" ∧ p = objFile := by
  rcases hrf : lib.readFile usdzFile ppFlags with ⟨sceneOpt, e⟩
  cases sceneOpt with
  | none =>
      rw [(usdzToObj_readFile_none lib self usdzFile objFile e hrf).2.2] at hc
      simp at hc
  | some scene' =>
      by_cases hf : scene'.mFlags &&& AI_SCENE_FLAGS_INCOMPLETE ≠ 0
      · rw [(usdzToObj_scene_incomplete lib self usdzFile objFile e scene'
          hrf hf).2.2] at hc
        simp at hc
      · push_neg at hf
        by_cases hr : scene'.mRootNode = false
        · rw [(usdzToObj_scene_noroot lib self usdzFile objFile e scene'
            hrf hf hr).2.2] at hc
          simp at hc
        · have hr' : scene'.mRootNode = true := by
            cases hmr : scene'.mRootNode
            · exact absurd hmr hr
            · rfl
          rcases hex : lib.exportScene scene' "obj" objFile with ⟨result, ee⟩
          rw [(usdzToObj_scene_export lib self usdzFile objFile e ee scene'
            result hrf hf hr' hex).2.2] at hc
          simp at hc
          exact ⟨hc.2.1, hc.2.2⟩

/-- Witness for C10 on a concrete succeeding library behaviour. -/
theorem usdzToObj_export_format_obj_witness :
    "obj" = "obj" ∧ "model.obj" = "model.obj" :=
  usdzToObj_export_format_obj happyLib ⟨"", "", false⟩ "model.usdz" "model.obj"
    goodScene "obj" "model.obj" (by decide)
